import Mathlib

/-!
# Verification of the lab4-crud book API core

Shallow embedding of the repository's core logic — the field validator
(`internal/validator`), the pagination/sort filter resolver and the book
store (`internal/data/models.go`), the request handlers
(`cmd/api/handlers.go`), the query-string helpers (`cmd/api/helpers.go`)
and the per-IP rate-limiting middleware (`cmd/api/middleware.go`) —
together with theorems settling the spec's claims about them.

Go `int`/`int64` values are modelled as `Int`, strings as `String`
(with `len` on a Go string modelled as the UTF-8 byte size), Go maps as
association lists or functions into `Option`, and timestamps / wall-clock
instants as exact numbers (`Int` seconds for store timestamps, `ℚ`
seconds for the rate limiter's clock).
-/

namespace LabCrud

/-! ## internal/validator: the Validator type -/

/-- `validator.Validator`: a map from field names to their first error
message, embedded as an insertion-ordered association list (Go map with
explicit membership checks before every insert, so keys stay unique). -/
structure Validator where
  errors : List (String × String)
  deriving Repr, DecidableEq

/-- `validator.New()`: a fresh, empty Validator. -/
def Validator.new : Validator := ⟨[]⟩

/-- Lookup of `v.Errors[key]` (Go map indexing with the `, exists` form). -/
def Validator.lookup (v : Validator) (key : String) : Option String :=
  (v.errors.find? (fun p => p.1 = key)).map Prod.snd

/-- `Valid()`: true iff the Errors map contains no entries. -/
def Validator.valid (v : Validator) : Bool := v.errors.isEmpty

/-- `AddError(key, message)`: record `key` as failing with `message`,
unless `key` already has an error. -/
def Validator.addError (v : Validator) (key message : String) : Validator :=
  if (v.lookup key).isSome then v else ⟨v.errors ++ [(key, message)]⟩

/-- `Check(ok, key, message)`: add an error for `key` only when `ok` is false. -/
def Validator.check (v : Validator) (ok : Bool) (key message : String) : Validator :=
  if ok then v else v.addError key message

/-- One recorded call of `Check`, for reasoning about call sequences. -/
structure CheckCall where
  ok : Bool
  key : String
  message : String
  deriving Repr, DecidableEq

/-- Run a sequence of `Check` calls left to right on a validator. -/
def runChecks (v : Validator) : List CheckCall → Validator
  | [] => v
  | c :: rest => runChecks (v.check c.ok c.key c.message) rest

theorem Validator.lookup_isSome_iff (v : Validator) (key : String) :
    (v.lookup key).isSome = v.errors.any (fun p => p.1 = key) := by
  unfold Validator.lookup
  induction v.errors with
  | nil => rfl
  | cons p rest ih =>
      by_cases h : p.1 = key <;> simp [List.find?, List.any, h] at ih ⊢
      exact ih

theorem Validator.addError_errors_ne_nil (v : Validator) (key message : String) :
    (v.addError key message).errors ≠ [] := by
  unfold Validator.addError
  by_cases h : (v.lookup key).isSome
  · intro hnil
    rw [if_pos h] at hnil
    rw [Validator.lookup_isSome_iff, hnil] at h
    simp [List.any] at h
  · rw [if_neg h]
    simp

/-- Key algebraic fact about chained checks: a `Check` call keeps the
validator valid exactly when it was valid before and the condition held. -/
theorem Validator.check_valid (v : Validator) (ok : Bool) (key message : String) :
    (v.check ok key message).valid = (v.valid && ok) := by
  unfold Validator.check
  cases ok with
  | true => simp
  | false =>
      simp only [if_neg Bool.false_ne_true, Bool.and_false]
      have h := Validator.addError_errors_ne_nil v key message
      unfold Validator.valid
      cases hE : (v.addError key message).errors with
      | nil => exact absurd hE h
      | cons a rest => simp

theorem runChecks_valid (v : Validator) (cs : List CheckCall) :
    (runChecks v cs).valid = (v.valid && cs.all (fun c => c.ok)) := by
  induction cs generalizing v with
  | nil => simp [runChecks]
  | cons c rest ih =>
      rw [runChecks, ih, Validator.check_valid]
      simp [List.all_cons, Bool.and_assoc]

theorem Validator.check_true_eq (v : Validator) (key message : String) :
    v.check true key message = v := by
  simp [Validator.check]

theorem Validator.check_false_existing (v : Validator) (key message : String)
    (h : (v.lookup key).isSome) : v.check false key message = v := by
  simp [Validator.check, Validator.addError, h]

theorem Validator.check_false_fresh (v : Validator) (key message : String)
    (h : (v.lookup key).isSome = false) :
    (v.check false key message).errors = v.errors ++ [(key, message)] := by
  simp [Validator.check, Validator.addError, h]

/-- **C9**: on a Validator, a failing `Check` records its message under the
field key only when that key has no error yet (the first failure per field
is reported; a later failing `Check` for the same key is a no-op), a
succeeding `Check` never records anything, and `Valid()` is true exactly
when no errors have been recorded — in particular, running any sequence of
`Check` calls from a fresh Validator ends valid iff every condition in the
sequence held. -/
theorem validator_check_first_failure_wins_and_valid_iff_no_errors :
    (∀ (v : Validator) (key message : String), v.check true key message = v) ∧
    (∀ (v : Validator) (key message : String), (v.lookup key).isSome →
      v.check false key message = v) ∧
    (∀ (v : Validator) (key message : String), (v.lookup key).isSome = false →
      (v.check false key message).errors = v.errors ++ [(key, message)]) ∧
    (∀ v : Validator, v.valid = true ↔ v.errors = []) ∧
    (∀ cs : List CheckCall,
      (runChecks Validator.new cs).valid = true ↔ ∀ c ∈ cs, c.ok = true) := by
  refine ⟨Validator.check_true_eq, Validator.check_false_existing,
    Validator.check_false_fresh, ?_, ?_⟩
  · intro v
    unfold Validator.valid
    exact List.isEmpty_iff
  · intro cs
    rw [runChecks_valid]
    simp [Validator.new, Validator.valid, List.all_eq_true]

/-- Witness for C9 at concrete inputs: a failing check on a fresh key
records the message, a second failing check for the same key is a no-op,
and a two-call sequence with one failing condition is invalid. -/
theorem validator_check_witness :
    ((Validator.new.check false "title" "must be provided").errors
        = [("title", "must be provided")]) ∧
    ((Validator.new.check false "title" "must be provided").check false "title" "late"
        = Validator.new.check false "title" "must be provided") ∧
    ((runChecks Validator.new
        [⟨true, "isbn", "m1"⟩, ⟨false, "title", "m2"⟩]).valid = false) := by
  have h := validator_check_first_failure_wins_and_valid_iff_no_errors
  refine ⟨?_, ?_, ?_⟩
  · have := h.2.2.1 Validator.new "title" "must be provided" (by decide)
    simpa [Validator.new] using this
  · exact h.2.1 _ "title" "late" (by decide)
  · have hiff := h.2.2.2.2 [⟨true, "isbn", "m1"⟩, ⟨false, "title", "m2"⟩]
    by_contra hvalid
    simp only [Bool.not_eq_false] at hvalid
    have := hiff.mp hvalid ⟨false, "title", "m2"⟩ (by simp)
    simp at this

/-! ## internal/data/models.go: Filters, sorting and pagination metadata -/

/-- `data.Filters`: pagination and sorting parameters from the query string. -/
structure Filters where
  page : Int
  pageSize : Int
  sort : String
  sortSafeList : List String
  deriving Repr, DecidableEq

/-- `strings.HasPrefix(s, "-")`, over the character list so that concrete
instances evaluate in the kernel. -/
def startsWithDash (s : String) : Bool :=
  match s.data with
  | [] => false
  | c :: _ => c = '-'

/-- `strings.TrimPrefix(s, "-")`: drop a leading "-" when present. -/
def trimDash (s : String) : String :=
  if startsWithDash s then String.mk (s.data.drop 1) else s

/-- The `for _, safe := range f.SortSafeList` loop body of `sortColumn`. -/
def sortColumnLoop (sort : String) : List String → String
  | [] => "book_id"
  | safe :: rest => if sort = safe then trimDash sort else sortColumnLoop sort rest

/-- `Filters.sortColumn`: the validated column name for ORDER BY,
defaulting to `book_id`. -/
def Filters.sortColumn (f : Filters) : String :=
  sortColumnLoop f.sort f.sortSafeList

/-- `Filters.sortDirection`: "ASC" or "DESC" based on the Sort prefix. -/
def Filters.sortDirection (f : Filters) : String :=
  if startsWithDash f.sort then "DESC" else "ASC"

/-- `Filters.limit`: the SQL LIMIT value. -/
def Filters.limit (f : Filters) : Int := f.pageSize

/-- `Filters.offset`: the SQL OFFSET value. -/
def Filters.offset (f : Filters) : Int := (f.page - 1) * f.pageSize

theorem sortColumnLoop_of_mem (sort : String) (l : List String) (h : sort ∈ l) :
    sortColumnLoop sort l = trimDash sort := by
  induction l with
  | nil => cases h
  | cons safe rest ih =>
      rw [sortColumnLoop]
      by_cases hs : sort = safe
      · rw [if_pos hs]
      · rw [if_neg hs]
        exact ih ((List.mem_cons.mp h).resolve_left hs)

theorem sortColumnLoop_of_not_mem (sort : String) (l : List String)
    (h : sort ∉ l) : sortColumnLoop sort l = "book_id" := by
  induction l with
  | nil => rfl
  | cons safe rest ih =>
      rw [sortColumnLoop,
        if_neg (fun hs => h (by rw [hs]; exact List.mem_cons_self safe rest))]
      exact ih (fun hm => h (List.mem_cons_of_mem safe hm))

/-- **C4**: for every Filters value, the resolved sort column is the raw
sort token with a leading "-" stripped when the raw token (sign included)
is in the allow-list, and the default column `book_id` otherwise; the
resolved direction is "DESC" exactly when the raw token starts with "-",
and "ASC" otherwise. -/
theorem filters_sort_resolution (f : Filters) :
    (f.sort ∈ f.sortSafeList → f.sortColumn = trimDash f.sort) ∧
    (f.sort ∉ f.sortSafeList → f.sortColumn = "book_id") ∧
    (f.sortDirection = "DESC" ↔ startsWithDash f.sort = true) ∧
    (startsWithDash f.sort = false → f.sortDirection = "ASC") := by
  refine ⟨fun h => sortColumnLoop_of_mem f.sort f.sortSafeList h,
    fun h => sortColumnLoop_of_not_mem f.sort f.sortSafeList h, ?_, ?_⟩
  · unfold Filters.sortDirection
    cases h : startsWithDash f.sort <;> simp [h]
  · intro h
    unfold Filters.sortDirection
    rw [h]
    simp

/-- The handler's sort allow-list for books
(`cmd/api/handlers.go`, `listBooksHandler`). -/
def bookSortSafeList : List String :=
  ["book_id", "title", "publication_year", "-book_id", "-title", "-publication_year"]

/-- Witness for C4: `-title` resolves to column `title` descending, and an
out-of-list token falls back to `book_id` ascending. -/
theorem filters_sort_resolution_witness :
    (Filters.mk 1 10 "-title" bookSortSafeList).sortColumn = "title" ∧
    (Filters.mk 1 10 "-title" bookSortSafeList).sortDirection = "DESC" ∧
    (Filters.mk 1 10 "year" bookSortSafeList).sortColumn = "book_id" ∧
    (Filters.mk 1 10 "year" bookSortSafeList).sortDirection = "ASC" := by
  refine ⟨?_, ?_, ?_, ?_⟩
  · rw [(filters_sort_resolution ⟨1, 10, "-title", bookSortSafeList⟩).1 (by decide)]
    decide
  · exact (filters_sort_resolution ⟨1, 10, "-title", bookSortSafeList⟩).2.2.1.mpr (by decide)
  · exact (filters_sort_resolution ⟨1, 10, "year", bookSortSafeList⟩).2.1 (by decide)
  · exact (filters_sort_resolution ⟨1, 10, "year", bookSortSafeList⟩).2.2.2 (by decide)

/-- `data.Metadata`: pagination information for list responses; the Go
zero value (all fields 0 / omitted from JSON) is the record of defaults. -/
structure Metadata where
  currentPage : Int := 0
  pageSize : Int := 0
  firstPage : Int := 0
  lastPage : Int := 0
  totalRecords : Int := 0
  deriving Repr, DecidableEq

/-- `calculateMetadata`: page metadata from the total record count and the
filter values. `math.Ceil(float64(totalRecords)/float64(pageSize))` is
modelled as the exact rational ceiling (float64 arithmetic is exact on
every count and page size this program can reach). -/
def calculateMetadata (totalRecords page pageSize : Int) : Metadata :=
  if totalRecords = 0 then {}
  else
    { currentPage := page
      pageSize := pageSize
      firstPage := 1
      lastPage := ⌈(totalRecords : ℚ) / (pageSize : ℚ)⌉
      totalRecords := totalRecords }

theorem ceil_ratCast_div (t s : Int) (hs : 0 < s) :
    ⌈(t : ℚ) / (s : ℚ)⌉ = (t + s - 1) / s := by
  have hsQ : (0 : ℚ) < (s : ℚ) := by exact_mod_cast hs
  have h1 := Int.ediv_add_emod (t + s - 1) s
  have h2 := Int.emod_nonneg (t + s - 1) (ne_of_gt hs)
  have h3 := Int.emod_lt_of_pos (t + s - 1) hs
  rw [Int.ceil_eq_iff]
  constructor
  · rw [lt_div_iff₀ hsQ]
    have hInt : ((t + s - 1) / s - 1) * s < t := by nlinarith [h1, h2, h3]
    exact_mod_cast hInt
  · rw [div_le_iff₀ hsQ]
    have hInt : t ≤ ((t + s - 1) / s) * s := by nlinarith [h1, h2, h3]
    exact_mod_cast hInt

/-- **C6**: for every total record count, page and positive page size, the
computed Metadata has first_page 1, current_page the requested page,
last_page the ceiling of total/page_size (the integer formula
(total + size - 1) / size) and total_records the total when the total is
nonzero, and is the all-zero value when the total is 0, regardless of the
requested page. -/
theorem calculateMetadata_spec (t p s : Int) (hs : 0 < s) :
    (t = 0 → calculateMetadata t p s = {}) ∧
    (t ≠ 0 → calculateMetadata t p s =
      { currentPage := p
        pageSize := s
        firstPage := 1
        lastPage := (t + s - 1) / s
        totalRecords := t }) := by
  constructor
  · intro h
    rw [calculateMetadata, if_pos h]
  · intro h
    rw [calculateMetadata, if_neg h, ceil_ratCast_div t s hs]

/-- Witness for C6: page size 10 with 25 total records on page 2 gives
last_page 3, and a zero total gives the zero Metadata whatever the page. -/
theorem calculateMetadata_spec_witness :
    calculateMetadata 25 2 10 = ⟨2, 10, 1, 3, 25⟩ ∧
    calculateMetadata 0 7 10 = ⟨0, 0, 0, 0, 0⟩ := by
  constructor
  · rw [(calculateMetadata_spec 25 2 10 (by decide)).2 (by decide)]
    decide
  · rw [(calculateMetadata_spec 0 7 10 (by decide)).1 rfl]

/-! ## cmd/api/helpers.go and listBooksHandler: query parsing and validation -/

/-- `validator.In`: true if value is present in the list. -/
def validatorIn (value : String) : List String → Bool
  | [] => false
  | item :: rest => if value = item then true else validatorIn value rest

/-- Decimal value of a digit string, most significant digit first. -/
def digitsToNat (cs : List Char) : Nat :=
  cs.foldl (fun n c => 10 * n + (c.toNat - '0'.toNat)) 0

/-- `strconv.Atoi`: an optional sign followed by at least one decimal
digit; anything else fails. (The overflow failure mode is far beyond any
input this verification evaluates and is not modelled.) -/
def atoi (s : String) : Option Int :=
  match s.data with
  | [] => none
  | c :: rest =>
    let signAndDigits : Bool × List Char :=
      if c = '+' then (false, rest)
      else if c = '-' then (true, rest)
      else (false, c :: rest)
    match signAndDigits with
    | (neg, digits) =>
      if digits.isEmpty then none
      else if digits.all Char.isDigit then
        some (if neg then -(digitsToNat digits : Int) else (digitsToNat digits : Int))
      else none

/-- `readString(qs, key, default)`: the raw query value, or the default
when the key is absent or empty (`url.Values.Get` yields "" for absent). -/
def readString (param : Option String) (defaultValue : String) : String :=
  let s := param.getD ""
  if s = "" then defaultValue else s

/-- `readInt(qs, key, default)`: the query value parsed with
`strconv.Atoi`, or the default when the key is absent, empty, or the
parse fails. -/
def readInt (param : Option String) (defaultValue : Int) : Int :=
  let s := param.getD ""
  if s = "" then defaultValue
  else
    match atoi s with
    | some i => i
    | none => defaultValue

/-- The validation block of `listBooksHandler`, checks in source order. -/
def validateListQuery (page pageSize : Int) (sort : String) : Validator :=
  ((((Validator.new.check (decide (0 < page)) "page" "must be greater than zero").check
    (decide (page ≤ 10000000)) "page" "must be a maximum of 10 million").check
    (decide (0 < pageSize)) "page_size" "must be greater than zero").check
    (decide (pageSize ≤ 100)) "page_size" "must be a maximum of 100").check
    (validatorIn sort bookSortSafeList) "sort" "invalid sort value"

/-- Outcome of `listBooksHandler` up to the store call: either a 422 with
the collected field errors, or proceeding to `GetAll` with the built
Filters value. -/
inductive ListOutcome where
  | failedValidation (errors : List (String × String))
  | proceed (filters : Filters)
  deriving Repr, DecidableEq

/-- `listBooksHandler` after query parsing: validate, then either reject
with 422 or build the Filters value and proceed. -/
def listBooksCore (page pageSize : Int) (sort : String) : ListOutcome :=
  let v := validateListQuery page pageSize sort
  if v.valid then .proceed ⟨page, pageSize, sort, bookSortSafeList⟩
  else .failedValidation v.errors

/-- `listBooksHandler` from the raw query parameters, using the
`readInt`/`readString` defaults (page 1, page_size 10, sort book_id). -/
def listBooksFromQuery (pageParam pageSizeParam sortParam : Option String) : ListOutcome :=
  let page := readInt pageParam 1
  let pageSize := readInt pageSizeParam 10
  let sort := readString sortParam "book_id"
  listBooksCore page pageSize sort

theorem validateListQuery_valid (page pageSize : Int) (sort : String) :
    (validateListQuery page pageSize sort).valid =
      (decide (0 < page) && decide (page ≤ 10000000) && decide (0 < pageSize) &&
        decide (pageSize ≤ 100) && validatorIn sort bookSortSafeList) := by
  unfold validateListQuery
  simp only [Validator.check_valid]
  simp [Validator.new, Validator.valid]

/-- **C5**: the list handler rejects, via the Validator and hence with a
422, every query whose sort token is outside the allow-list
{book_id, title, publication_year and their "-" variants}, whose page is
≤ 0 or > 10,000,000, or whose page_size is ≤ 0 or > 100; and whenever it
proceeds, the Filters carry the raw sort token unchanged and that token
is in the allow-list — an out-of-list sort is never silently replaced by
a default. -/
theorem list_handler_rejects_invalid_query (page pageSize : Int) (sort : String) :
    (validatorIn sort bookSortSafeList = false ∨ page ≤ 0 ∨ 10000000 < page ∨
        pageSize ≤ 0 ∨ 100 < pageSize →
      ∃ errs, errs ≠ [] ∧ listBooksCore page pageSize sort = .failedValidation errs) ∧
    (∀ f, listBooksCore page pageSize sort = .proceed f →
      f.sort = sort ∧ validatorIn sort bookSortSafeList = true) := by
  constructor
  · intro hbad
    have hvalid : (validateListQuery page pageSize sort).valid = false := by
      rw [validateListQuery_valid]
      rcases hbad with h | h | h | h | h
      · rw [h]; simp
      · rw [decide_eq_false (by omega : ¬ (0 < page))]; simp
      · rw [decide_eq_false (by omega : ¬ (page ≤ 10000000))]; simp
      · rw [decide_eq_false (by omega : ¬ (0 < pageSize))]; simp
      · rw [decide_eq_false (by omega : ¬ (pageSize ≤ 100))]; simp
    refine ⟨(validateListQuery page pageSize sort).errors, ?_, ?_⟩
    · intro hnil
      have h := hvalid
      unfold Validator.valid at h
      rw [hnil] at h
      simp at h
    · simp only [listBooksCore, hvalid]
      simp
  · intro f hf
    cases hval : (validateListQuery page pageSize sort).valid with
    | false =>
        simp only [listBooksCore, hval] at hf
        simp at hf
    | true =>
        simp only [listBooksCore, hval, if_true] at hf
        simp only [ListOutcome.proceed.injEq] at hf
        rw [validateListQuery_valid] at hval
        refine ⟨?_, ?_⟩
        · rw [← hf]
        · simp only [Bool.and_eq_true] at hval
          exact hval.2
/-- Witness for C5: an out-of-allow-list sort token with otherwise valid
paging is rejected with a nonempty field-error map. -/
theorem list_handler_rejects_invalid_query_witness :
    ∃ errs, errs ≠ [] ∧ listBooksCore 1 10 "foo" = .failedValidation errs :=
  (list_handler_rejects_invalid_query 1 10 "foo").1 (Or.inl (by decide))

theorem readInt_default_of_atoi_none (s : String) (d : Int) (h : atoi s = none) :
    readInt (some s) d = d := by
  unfold readInt
  by_cases he : s = ""
  · simp [he]
  · simp [he, h]

/-- **C10**: a list request whose page or page_size parameter is present
but not parseable as an integer is not rejected: `readInt` silently
substitutes the defaults (page 1, page_size 10) and the handler proceeds
(sort defaulting to book_id) instead of answering 422. -/
theorem unparseable_paging_params_use_defaults (s₁ s₂ : String)
    (h₁ : atoi s₁ = none) (h₂ : atoi s₂ = none) :
    readInt (some s₁) 1 = 1 ∧ readInt (some s₂) 10 = 10 ∧
    listBooksFromQuery (some s₁) (some s₂) none =
      .proceed ⟨1, 10, "book_id", bookSortSafeList⟩ := by
  refine ⟨readInt_default_of_atoi_none s₁ 1 h₁, readInt_default_of_atoi_none s₂ 10 h₂, ?_⟩
  unfold listBooksFromQuery
  rw [readInt_default_of_atoi_none s₁ 1 h₁, readInt_default_of_atoi_none s₂ 10 h₂]
  decide

/-- Witness for C10: `page=abc&page_size=1x` succeeds with the default
paging instead of a 422. -/
theorem unparseable_paging_params_use_defaults_witness :
    readInt (some "abc") 1 = 1 ∧ readInt (some "1x") 10 = 10 ∧
    listBooksFromQuery (some "abc") (some "1x") none =
      .proceed ⟨1, 10, "book_id", bookSortSafeList⟩ :=
  unparseable_paging_params_use_defaults "abc" "1x" (by decide) (by decide)

/-! ## internal/data: the Book entity and the BookModel store operations

The database is modelled as the list of rows of the books table plus a
round-trip counter, so that "performs no database access" is the counter
staying put. Store-assigned timestamps are integers. -/

/-- `data.Book`: one row of the books table. -/
structure Book where
  id : Int
  title : String
  isbn : String
  publisher : String
  publicationYear : Int
  minimumAge : Int
  description : String
  createdAt : Int
  updatedAt : Int
  deriving Repr, DecidableEq

/-- The error values the store operations can surface:
`data.ErrRecordNotFound` (the repository's sentinel) and
`database/sql.ErrNoRows` (the driver's sentinel, distinct from it). -/
inductive StoreError where
  | errRecordNotFound
  | sqlErrNoRows
  deriving Repr, DecidableEq

/-- The books table plus a count of database round trips issued. -/
structure DB where
  rows : List Book
  queryCount : Nat
  deriving Repr, DecidableEq

deriving instance DecidableEq for Except

/-- `BookModel.Get`: guard `id < 1`, then `SELECT ... WHERE book_id = $1`;
`sql.ErrNoRows` from the scan is mapped to `ErrRecordNotFound`. -/
def BookModel.get (db : DB) (id : Int) : Except StoreError Book × DB :=
  if id < 1 then (.error .errRecordNotFound, db)
  else
    let touched : DB := { db with queryCount := db.queryCount + 1 }
    match db.rows.find? (fun b => b.id == id) with
    | some book => (.ok book, touched)
    | none => (.error .errRecordNotFound, touched)

/-- `BookModel.Delete`: guard `id < 1`, then `DELETE ... WHERE book_id = $1`
and report `ErrRecordNotFound` when zero rows were affected. -/
def BookModel.delete (db : DB) (id : Int) : Except StoreError Unit × DB :=
  if id < 1 then (.error .errRecordNotFound, db)
  else
    let touched : DB :=
      { db with
        queryCount := db.queryCount + 1
        rows := db.rows.filter (fun b => !(b.id == id)) }
    if db.rows.any (fun b => b.id == id) then (.ok (), touched)
    else (.error .errRecordNotFound, touched)

/-- `BookModel.Update`: no id guard; `UPDATE ... WHERE book_id = $7
RETURNING updated_at` scanned back into the struct. When no row matches,
the scan of the absent RETURNING row yields `sql.ErrNoRows`, which Update
returns unmapped. `updated_at = CURRENT_TIMESTAMP` is the `now` argument. -/
def BookModel.update (db : DB) (book : Book) (now : Int) : Except StoreError Book × DB :=
  let touched : DB :=
    { db with
      queryCount := db.queryCount + 1
      rows := db.rows.map (fun b =>
        if b.id == book.id then { book with createdAt := b.createdAt, updatedAt := now }
        else b) }
  if db.rows.any (fun b => b.id == book.id) then
    (.ok { book with updatedAt := now }, touched)
  else
    (.error .sqlErrNoRows, touched)

/-- The handlers' store-error switch
(`errors.Is(err, data.ErrRecordNotFound)` → 404 `notFoundResponse`,
anything else → 500 `serverErrorResponse`). The update handler does not
even apply this switch to the `Update` call: it maps every Update error
straight to 500. -/
def storeErrorStatus (e : StoreError) : Nat :=
  if e = .errRecordNotFound then 404 else 500

/-- **C1** (code bug evaluated at the failing input): `Update` on an
identifier absent from the store does not fail with the NotFound
sentinel; it surfaces the driver's `sql.ErrNoRows` unmapped, which the
handlers' error switch turns into a 500, not a 404 — against the spec's
mandate that a zero-row update fail with NotFound. -/
theorem update_missing_identifier_is_generic_fault :
    (BookModel.update ⟨[], 0⟩ ⟨42, "T", "1234567890123", "P", 2020, 0, "", 0, 0⟩ 5).1
        = .error .sqlErrNoRows ∧
    StoreError.sqlErrNoRows ≠ StoreError.errRecordNotFound ∧
    storeErrorStatus .sqlErrNoRows = 500 := by decide

/-- **C2** (counterexample): for the nonpositive identifier 0, `Update`
neither fails with the NotFound sentinel nor leaves storage untouched: it
issues the query (round-trip counter grows) and fails with the driver's
`sql.ErrNoRows`. -/
theorem nonpositive_update_touches_storage_counterexample :
    (BookModel.update ⟨[], 0⟩ ⟨0, "T", "1234567890123", "P", 2020, 0, "", 0, 0⟩ 5).1
        = .error .sqlErrNoRows ∧
    (BookModel.update ⟨[], 0⟩ ⟨0, "T", "1234567890123", "P", 2020, 0, "", 0, 0⟩ 5).2.queryCount
        = 1 ∧
    ¬ ((BookModel.update ⟨[], 0⟩ ⟨0, "T", "1234567890123", "P", 2020, 0, "", 0, 0⟩ 5).1
          = .error .errRecordNotFound ∧
       (BookModel.update ⟨[], 0⟩ ⟨0, "T", "1234567890123", "P", 2020, 0, "", 0, 0⟩ 5).2
          = ⟨[], 0⟩) := by decide

theorem any_id_eq_false (l : List Book) (c : Int) (h : ∀ x ∈ l, x.id ≠ c) :
    l.any (fun x => x.id == c) = false := by
  rw [List.any_eq_false]
  intro x hx
  simp [h x hx]

theorem map_rows_id (l : List Book) (f : Book → Book) (h : ∀ x ∈ l, f x = x) :
    l.map f = l := by
  induction l with
  | nil => rfl
  | cons a rest ih =>
      rw [List.map_cons, h a (List.mem_cons_self a rest),
        ih (fun x hx => h x (List.mem_cons_of_mem a hx))]

/-- **C2** (amended): for every id i ≤ 0, `Get(i)` and `Delete(i)` fail
with the NotFound sentinel without touching storage; `Update` with an
entity identifier ≤ 0 has no such guard: on a store whose rows all carry
positive ids it issues its query (one extra round trip, rows unchanged)
and fails with the driver's `sql.ErrNoRows` instead of NotFound. -/
theorem nonpositive_id_guards_amended (db : DB) (id : Int) (book : Book) (now : Int)
    (hid : id ≤ 0) (hbid : book.id ≤ 0) (hrows : ∀ x ∈ db.rows, 1 ≤ x.id) :
    BookModel.get db id = (.error .errRecordNotFound, db) ∧
    BookModel.delete db id = (.error .errRecordNotFound, db) ∧
    (BookModel.update db book now).1 = .error .sqlErrNoRows ∧
    (BookModel.update db book now).2.rows = db.rows ∧
    (BookModel.update db book now).2.queryCount = db.queryCount + 1 := by
  have hguard : id < 1 := by omega
  have hany : db.rows.any (fun x => x.id == book.id) = false :=
    any_id_eq_false db.rows book.id
      (fun x hx => by have := hrows x hx; omega)
  have hmap : db.rows.map (fun b =>
      if b.id == book.id then { book with createdAt := b.createdAt, updatedAt := now }
      else b) = db.rows := by
    refine map_rows_id _ _ (fun x hx => ?_)
    rw [if_neg]
    simp only [beq_iff_eq]
    have := hrows x hx
    omega
  have hupd : BookModel.update db book now =
      (.error .sqlErrNoRows, { db with queryCount := db.queryCount + 1 }) := by
    unfold BookModel.update
    rw [hmap]
    simp [hany]
  refine ⟨?_, ?_, ?_, ?_, ?_⟩
  · unfold BookModel.get
    rw [if_pos hguard]
  · unfold BookModel.delete
    rw [if_pos hguard]
  · rw [hupd]
  · rw [hupd]
  · rw [hupd]

/-- Witness for the amended C2 at a concrete store and ids. -/
theorem nonpositive_id_guards_amended_witness :
    (let db : DB := ⟨[⟨3, "A", "1234567890123", "P", 2000, 0, "", 1, 1⟩], 0⟩
     let book : Book := ⟨-2, "B", "1234567890123", "P", 2000, 0, "", 1, 1⟩
     BookModel.get db 0 = (.error .errRecordNotFound, db) ∧
     BookModel.delete db 0 = (.error .errRecordNotFound, db) ∧
     (BookModel.update db book 9).1 = .error .sqlErrNoRows ∧
     (BookModel.update db book 9).2.rows = db.rows ∧
     (BookModel.update db book 9).2.queryCount = db.queryCount + 1) :=
  nonpositive_id_guards_amended _ 0 _ 9 (by decide) (by decide) (by decide)

/-! ## cmd/api/handlers.go: the PATCH /v1/books/:id handler -/

/-- `data.UpdateBookInput`: every field optional; a nil pointer means
"leave unchanged". -/
structure UpdateBookInput where
  title : Option String
  isbn : Option String
  publisher : Option String
  publicationYear : Option Int
  minimumAge : Option Int
  description : Option String
  deriving Repr, DecidableEq

/-- The merge block of `updateBookHandler`: apply only the fields that
were actually provided (non-nil pointers), in source order. -/
def applyUpdateInput (book : Book) (input : UpdateBookInput) : Book :=
  let book := match input.title with
    | some v => { book with title := v }
    | none => book
  let book := match input.isbn with
    | some v => { book with isbn := v }
    | none => book
  let book := match input.publisher with
    | some v => { book with publisher := v }
    | none => book
  let book := match input.publicationYear with
    | some v => { book with publicationYear := v }
    | none => book
  let book := match input.minimumAge with
    | some v => { book with minimumAge := v }
    | none => book
  match input.description with
  | some v => { book with description := v }
  | none => book

/-- The eight validation checks the create, replace and update handlers
all run over Book fields, in source order. Go `len` on a string is the
UTF-8 byte size. -/
def validateBook (b : Book) : Validator :=
  (((((((Validator.new.check (decide (b.title ≠ "")) "title" "must be provided").check
    (decide (b.title.utf8ByteSize ≤ 255)) "title"
      "must not be more than 255 characters long").check
    (decide (b.isbn ≠ "")) "isbn" "must be provided").check
    (decide (b.isbn.utf8ByteSize = 13)) "isbn" "must be exactly 13 characters long").check
    (decide (b.publisher ≠ "")) "publisher" "must be provided").check
    (decide (0 < b.publicationYear)) "publication_year" "must be provided").check
    (decide (b.publicationYear ≤ 2026)) "publication_year" "must not be in the future").check
    (decide (0 ≤ b.minimumAge)) "minimum_age" "must be zero or greater"

/-- Outcome of `updateBookHandler` after the id was read: 404 from the
fetch, 422 from validation of the merged entity, 500 from a store fault,
or 200 with the updated book. -/
inductive UpdateOutcome where
  | ok (book : Book)
  | notFound
  | failedValidation (errors : List (String × String))
  | serverError
  deriving Repr, DecidableEq

/-- `updateBookHandler` (PATCH) after decoding: fetch by id (404 via the
sentinel switch if absent), merge the provided fields, validate the
merged result, then persist with `Update` (any Update error → 500). -/
def updateBookCore (db : DB) (id : Int) (input : UpdateBookInput) (now : Int) :
    UpdateOutcome × DB :=
  match BookModel.get db id with
  | (.error e, db') =>
      (if e = .errRecordNotFound then .notFound else .serverError, db')
  | (.ok book, db') =>
      let book := applyUpdateInput book input
      let v := validateBook book
      if v.valid then
        match BookModel.update db' book now with
        | (.ok bookUpdated, db'') => (.ok bookUpdated, db'')
        | (.error _, db'') => (.serverError, db'')
      else (.failedValidation v.errors, db')

theorem find_id_append (l₁ l₂ : List Book) (b : Book)
    (h₁ : ∀ x ∈ l₁, x.id ≠ b.id) :
    (l₁ ++ b :: l₂).find? (fun x => x.id == b.id) = some b := by
  induction l₁ with
  | nil =>
      rw [List.nil_append, List.find?_cons_of_pos]
      simp
  | cons a rest ih =>
      rw [List.cons_append, List.find?_cons_of_neg]
      · exact ih (fun x hx => h₁ x (List.mem_cons_of_mem a hx))
      · simp only [beq_iff_eq]
        exact h₁ a (List.mem_cons_self a rest)

theorem get_found (l₁ l₂ : List Book) (b : Book) (q : Nat)
    (hid : 1 ≤ b.id) (h₁ : ∀ x ∈ l₁, x.id ≠ b.id) :
    BookModel.get ⟨l₁ ++ b :: l₂, q⟩ b.id = (.ok b, ⟨l₁ ++ b :: l₂, q + 1⟩) := by
  unfold BookModel.get
  rw [if_neg (by omega : ¬ b.id < 1), find_id_append l₁ l₂ b h₁]

theorem update_found (l₁ l₂ : List Book) (b : Book) (q : Nat) (book : Book) (now : Int)
    (hbid : book.id = b.id)
    (h₁ : ∀ x ∈ l₁, x.id ≠ b.id) (h₂ : ∀ x ∈ l₂, x.id ≠ b.id) :
    BookModel.update ⟨l₁ ++ b :: l₂, q⟩ book now =
      (.ok { book with updatedAt := now },
       ⟨l₁ ++ { book with createdAt := b.createdAt, updatedAt := now } :: l₂, q + 1⟩) := by
  have hrow : ∀ x : Book, x.id ≠ b.id →
      (if x.id == book.id then { book with createdAt := x.createdAt, updatedAt := now }
       else x) = x := by
    intro x hx
    rw [if_neg]
    simp only [beq_iff_eq, hbid]
    exact hx
  unfold BookModel.update
  have hany : (l₁ ++ b :: l₂).any (fun x => x.id == book.id) = true := by
    rw [List.any_append, List.any_cons]
    simp [hbid]
  rw [hany, List.map_append, List.map_cons,
    map_rows_id l₁ _ (fun x hx => hrow x (h₁ x hx)),
    map_rows_id l₂ _ (fun x hx => hrow x (h₂ x hx))]
  simp [hbid]

/-- **C3**: for every existing book and a PATCH body providing only the
title, the partial-update handler merges only the title into the fetched
entity, validates that merged entity (not the raw input), and on success
stores and returns a book differing from the original only in title and
updated_at — id and every other field unchanged, all other rows intact. -/
theorem patch_title_only_updates_title_and_timestamp
    (l₁ l₂ : List Book) (b : Book) (q : Nat) (t : String) (now : Int)
    (hid : 1 ≤ b.id) (h₁ : ∀ x ∈ l₁, x.id ≠ b.id) (h₂ : ∀ x ∈ l₂, x.id ≠ b.id) :
    applyUpdateInput b ⟨some t, none, none, none, none, none⟩ = { b with title := t } ∧
    ((validateBook { b with title := t }).valid = true →
      updateBookCore ⟨l₁ ++ b :: l₂, q⟩ b.id ⟨some t, none, none, none, none, none⟩ now =
        (.ok { b with title := t, updatedAt := now },
         ⟨l₁ ++ { b with title := t, updatedAt := now } :: l₂, q + 2⟩)) ∧
    ((validateBook { b with title := t }).valid = false →
      updateBookCore ⟨l₁ ++ b :: l₂, q⟩ b.id ⟨some t, none, none, none, none, none⟩ now =
        (.failedValidation (validateBook { b with title := t }).errors,
         ⟨l₁ ++ b :: l₂, q + 1⟩)) := by
  have happly : applyUpdateInput b ⟨some t, none, none, none, none, none⟩
      = { b with title := t } := rfl
  refine ⟨happly, ?_, ?_⟩
  · intro hv
    unfold updateBookCore
    rw [get_found l₁ l₂ b q hid h₁]
    simp only [happly, hv, if_true]
    rw [update_found l₁ l₂ b (q + 1) { b with title := t } now rfl h₁ h₂]
  · intro hv
    unfold updateBookCore
    rw [get_found l₁ l₂ b q hid h₁]
    simp only [happly, hv]
    rfl

/-- Witness for C3: patching only the title of a stored valid book yields
200 with just title and updated_at changed. -/
theorem patch_title_only_witness :
    (let b : Book := ⟨1, "Old", "1234567890123", "Pub", 2020, 5, "", 100, 100⟩
     updateBookCore ⟨[b], 0⟩ b.id ⟨some "New", none, none, none, none, none⟩ 200 =
       (.ok { b with title := "New", updatedAt := 200 },
        ⟨[{ b with title := "New", updatedAt := 200 }], 2⟩)) := by
  have h := (patch_title_only_updates_title_and_timestamp [] []
    ⟨1, "Old", "1234567890123", "Pub", 2020, 5, "", 100, 100⟩ 0 "New" 200
    (by decide) (by simp) (by simp)).2.1 (by decide)
  exact h

/-! ## cmd/api/middleware.go: the per-IP rate limiter

The repository seeds `rate.NewLimiter(rate.Limit(2), 4)` per IP; the
bucket mechanics live in the external `golang.org/x/time/rate`
dependency, so they are modelled from the spec. The wall clock is ℚ
seconds. -/

/-- Modelled from the spec: the token bucket of `golang.org/x/time/rate`
(external dependency, not in this repository's sources) — "a capped
count of permits that refill at a fixed rate and are consumed one per
admitted request" (glossary; §4.3). -/
structure Limiter where
  limit : ℚ
  burst : ℚ
  tokens : ℚ
  lastEvent : ℚ
  deriving Repr, DecidableEq

/-- Modelled from the spec: `rate.NewLimiter(limit, burst)` created at
time `now` starts with a full bucket. -/
def Limiter.new (limit burst now : ℚ) : Limiter := ⟨limit, burst, burst, now⟩

/-- Modelled from the spec: `Limiter.Allow()` at time `now` — refill
`limit` tokens per elapsed second capped at `burst`, then consume one
token if at least one is available, else admit nothing. -/
def Limiter.allow (l : Limiter) (now : ℚ) : Bool × Limiter :=
  let tokens := min l.burst (l.tokens + l.limit * (now - l.lastEvent))
  if 1 ≤ tokens then (true, { l with tokens := tokens - 1, lastEvent := now })
  else (false, { l with tokens := tokens, lastEvent := now })

/-- `client` in middleware.go: a per-IP rate limiter and the time that IP
was last seen. -/
structure RLClient where
  limiter : Limiter
  lastSeen : ℚ
  deriving Repr, DecidableEq

/-- The `clients` map of `rateLimit`, a Go map modelled as a function. -/
def Registry := String → Option RLClient

/-- What the middleware does with one request: call the next handler, or
answer 429 via `rateLimitExceededResponse` without forwarding. -/
inductive LimitDecision where
  | forwarded
  | rejected429
  deriving Repr, DecidableEq

/-- One request through the `rateLimit` middleware body: create a fresh
limiter (2 tokens/s, burst 4) for a first-seen IP, stamp
`lastSeen = now` and store the advanced limiter state back in the map,
and forward exactly when `Allow()` granted a token. -/
def rateLimitStep (clients : Registry) (ip : String) (now : ℚ) :
    LimitDecision × Registry :=
  let entry : RLClient := (clients ip).getD ⟨Limiter.new 2 4 now, now⟩
  let res := entry.limiter.allow now
  ((if res.1 then .forwarded else .rejected429),
   Function.update clients ip (some ⟨res.2, now⟩))

/-- A sequence of requests from one IP at the given times, oldest first;
returns the middleware's decisions in order. -/
def runRequests (clients : Registry) (ip : String) : List ℚ → List LimitDecision
  | [] => []
  | now :: rest =>
    match rateLimitStep clients ip now with
    | (d, clients') => d :: runRequests clients' ip rest

/-- The body of the cleanup goroutine's once-a-minute pass: evict every
client whose last-seen is more than 3 minutes (180 s) in the past. -/
def sweepClients (clients : Registry) (now : ℚ) : Registry :=
  fun ip =>
    match clients ip with
    | some c => if 180 < now - c.lastSeen then none else some c
    | none => none

theorem rateLimitStep_found (r : Registry) (ip : String) (now : ℚ) (c : RLClient)
    (d : Bool) (lim : Limiter) (hc : r ip = some c)
    (ha : c.limiter.allow now = (d, lim)) :
    rateLimitStep r ip now =
      ((if d then .forwarded else .rejected429),
       Function.update r ip (some ⟨lim, now⟩)) := by
  simp only [rateLimitStep, hc, Option.getD_some, ha]

theorem rateLimitStep_first_seen (r : Registry) (ip : String) (now : ℚ)
    (d : Bool) (lim : Limiter) (hip : r ip = none)
    (ha : (Limiter.new 2 4 now).allow now = (d, lim)) :
    rateLimitStep r ip now =
      ((if d then .forwarded else .rejected429),
       Function.update r ip (some ⟨lim, now⟩)) := by
  simp only [rateLimitStep, hip, Option.getD_none, ha]

theorem runRequests_cons_found (r : Registry) (ip : String) (now : ℚ) (rest : List ℚ)
    (c : RLClient) (d : Bool) (lim : Limiter) (hc : r ip = some c)
    (ha : c.limiter.allow now = (d, lim)) :
    runRequests r ip (now :: rest) =
      (if d then .forwarded else .rejected429) ::
        runRequests (Function.update r ip (some ⟨lim, now⟩)) ip rest := by
  rw [runRequests, rateLimitStep_found r ip now c d lim hc ha]

theorem runRequests_cons_first_seen (r : Registry) (ip : String) (now : ℚ)
    (rest : List ℚ) (d : Bool) (lim : Limiter) (hip : r ip = none)
    (ha : (Limiter.new 2 4 now).allow now = (d, lim)) :
    runRequests r ip (now :: rest) =
      (if d then .forwarded else .rejected429) ::
        runRequests (Function.update r ip (some ⟨lim, now⟩)) ip rest := by
  rw [runRequests, rateLimitStep_first_seen r ip now d lim hip ha]

/-- **C7**: an identity not yet in the registry that fires five requests
in one instant has the first four forwarded (burst capacity 4) and the
fifth rejected with 429 and not forwarded; a further request at least
0.5 s later is forwarded again (one token back at the 2 tokens/s refill
rate). -/
theorem rate_limiter_burst_and_refill (r : Registry) (ip : String) (t w : ℚ)
    (hip : r ip = none) (hw : t + 1/2 ≤ w) :
    runRequests r ip [t, t, t, t, t, w] =
      [.forwarded, .forwarded, .forwarded, .forwarded, .rejected429, .forwarded] := by
  have a1 : (Limiter.new 2 4 t).allow t = (true, ⟨2, 4, 3, t⟩) := by
    unfold Limiter.new Limiter.allow
    norm_num
  have a2 : Limiter.allow ⟨2, 4, 3, t⟩ t = (true, ⟨2, 4, 2, t⟩) := by
    unfold Limiter.allow
    norm_num
  have a3 : Limiter.allow ⟨2, 4, 2, t⟩ t = (true, ⟨2, 4, 1, t⟩) := by
    unfold Limiter.allow
    norm_num
  have a4 : Limiter.allow ⟨2, 4, 1, t⟩ t = (true, ⟨2, 4, 0, t⟩) := by
    unfold Limiter.allow
    norm_num
  have a5 : Limiter.allow ⟨2, 4, 0, t⟩ t = (false, ⟨2, 4, 0, t⟩) := by
    unfold Limiter.allow
    norm_num
  obtain ⟨lim6, a6⟩ : ∃ lim : Limiter, Limiter.allow ⟨2, 4, 0, t⟩ w = (true, lim) := by
    unfold Limiter.allow
    have hmin : (1 : ℚ) ≤ min 4 (0 + 2 * (w - t)) := le_min (by norm_num) (by linarith)
    rw [if_pos hmin]
    exact ⟨_, rfl⟩
  rw [runRequests_cons_first_seen r ip t [t, t, t, t, w] true ⟨2, 4, 3, t⟩ hip a1]
  rw [runRequests_cons_found (Function.update r ip (some ⟨⟨2, 4, 3, t⟩, t⟩)) ip t
    [t, t, t, w] ⟨⟨2, 4, 3, t⟩, t⟩ true ⟨2, 4, 2, t⟩
    (Function.update_same ip (some ⟨⟨2, 4, 3, t⟩, t⟩) r) a2]
  rw [Function.update_idem]
  rw [runRequests_cons_found (Function.update r ip (some ⟨⟨2, 4, 2, t⟩, t⟩)) ip t
    [t, t, w] ⟨⟨2, 4, 2, t⟩, t⟩ true ⟨2, 4, 1, t⟩
    (Function.update_same ip (some ⟨⟨2, 4, 2, t⟩, t⟩) r) a3]
  rw [Function.update_idem]
  rw [runRequests_cons_found (Function.update r ip (some ⟨⟨2, 4, 1, t⟩, t⟩)) ip t
    [t, w] ⟨⟨2, 4, 1, t⟩, t⟩ true ⟨2, 4, 0, t⟩
    (Function.update_same ip (some ⟨⟨2, 4, 1, t⟩, t⟩) r) a4]
  rw [Function.update_idem]
  rw [runRequests_cons_found (Function.update r ip (some ⟨⟨2, 4, 0, t⟩, t⟩)) ip t
    [w] ⟨⟨2, 4, 0, t⟩, t⟩ false ⟨2, 4, 0, t⟩
    (Function.update_same ip (some ⟨⟨2, 4, 0, t⟩, t⟩) r) a5]
  rw [Function.update_idem]
  rw [runRequests_cons_found (Function.update r ip (some ⟨⟨2, 4, 0, t⟩, t⟩)) ip w
    [] ⟨⟨2, 4, 0, t⟩, t⟩ true lim6
    (Function.update_same ip (some ⟨⟨2, 4, 0, t⟩, t⟩) r) a6]
  simp [runRequests]

/-- Witness for C7: a burst of five simultaneous requests from a fresh
IP, then one half a second later. -/
theorem rate_limiter_burst_and_refill_witness :
    runRequests (fun _ => none) "1.2.3.4" [0, 0, 0, 0, 0, 1/2] =
      [.forwarded, .forwarded, .forwarded, .forwarded, .rejected429, .forwarded] :=
  rate_limiter_burst_and_refill (fun _ => none) "1.2.3.4" 0 (1/2) rfl (by norm_num)

/-- **C8**: an identity whose last-seen timestamp lies more than
3 minutes in the past is absent from the registry after the next sweep
pass. -/
theorem stale_client_absent_after_sweep (clients : Registry) (ip : String)
    (now : ℚ) (c : RLClient) (hc : clients ip = some c)
    (hstale : 180 < now - c.lastSeen) :
    sweepClients clients now ip = none := by
  unfold sweepClients
  rw [hc]
  exact if_pos hstale

/-- Witness for C8: an IP last seen at time 0 is gone from the registry
after the sweep pass at time 200 s. -/
theorem stale_client_absent_after_sweep_witness :
    sweepClients
      (fun k => if k = "10.9.8.7" then some ⟨⟨2, 4, 4, 0⟩, 0⟩ else none) 200 "10.9.8.7"
      = none :=
  stale_client_absent_after_sweep _ "10.9.8.7" 200 ⟨⟨2, 4, 4, 0⟩, 0⟩ (by simp) (by norm_num)

end LabCrud
